import Mathlib

/-!
Verification development for the PracticeJem repository: a shallow embedding
in Lean 4 of the Express + SQLite application in app.js (src/unnamed/part_001)
together with the schema created by db.js and
migrations/migrate-create-rentals.js, and proofs about the embedded
operations.

Conventions of the embedding:
- SQLite rows become Lean structures; a table is a list of rows kept in
  insertion order; every AUTOINCREMENT id counter becomes an explicit
  nextXId field of the store.
- SQLite INTEGER values are Int; NULLable columns are Option.
- The images column of the rentals table holds a serialized JSON text blob.
  It is modeled abstractly by StoredImages: the values this system writes
  are JSON arrays of strings (app.js line 215 stores JSON.stringify of a
  list of path strings), plus NULL and undecodable text for degraded data.
- Route handlers become pure functions from the store and the request
  fields to a response paired with the new store. The express-validator
  middleware chain of a route is embedded as a guard evaluated before the
  handler body, exactly as validateRequest (app.js lines 51-57) short
  circuits with a 400 response before the handler runs.
- The price column is REAL; no claim computes with prices, so price values
  are carried opaquely as Option Int.
-/

/-- The stored content of the images column of a rentals row:
absent models NULL (the handler reads it through the JS expression
r.images with a fallback to the empty-array literal), encoded l models the
JSON serialization of the string list l, malformed models text on which
JSON.parse throws. -/
inductive StoredImages
  | absent
  | encoded (l : List String)
  | malformed
deriving DecidableEq

/-- A row of the users table (db.js): id, email, optional display name.
The password hash column is irrelevant to every claim and omitted. -/
structure UserRow where
  id : Int
  email : String
  name : Option String
deriving DecidableEq

/-- A row of the rentals table (migrations/migrate-create-rentals.js). -/
structure Rental where
  id : Int
  owner_id : Int
  title : String
  description : Option String
  price : Option Int
  location : Option String
  images : StoredImages
  created_at : Int
deriving DecidableEq

/-- A row of the comments table. -/
structure CommentRow where
  id : Int
  rental_id : Int
  user_id : Int
  text : String
  created_at : Int
deriving DecidableEq

/-- A row of the likes table. The schema declares UNIQUE(rental_id, user_id)
and id INTEGER PRIMARY KEY AUTOINCREMENT. -/
structure LikeRow where
  id : Int
  rental_id : Int
  user_id : Int
  created_at : Int
deriving DecidableEq

/-- A row of the todos table (db.js): done is persisted as an INTEGER 0/1. -/
structure TodoRow where
  id : Int
  user_id : Int
  text : String
  done : Int
  created_at : Int
deriving DecidableEq

/-- The SQLite store: one list per table, the autoincrement counter of each
table written by the embedded routes, and the clock value used for the
CURRENT_TIMESTAMP column default on inserts. -/
structure Db where
  users : List UserRow
  rentals : List Rental
  comments : List CommentRow
  likes : List LikeRow
  todos : List TodoRow
  nextLikeId : Int
  nextCommentId : Int
  nextTodoId : Int
  now : Int
deriving DecidableEq

/-- SELECT ... FROM rentals WHERE id = ? (app.js lines 239, 250): first row
of the rentals table with the given id. -/
def findRental (db : Db) (rid : Int) : Option Rental :=
  db.rentals.find? (fun r => r.id == rid)

/-- SELECT id FROM likes WHERE rental_id = ? AND user_id = ? (app.js
line 252). -/
def findLike (db : Db) (rid uid : Int) : Option LikeRow :=
  db.likes.find? (fun l => l.rental_id == rid && l.user_id == uid)

/-- SELECT COUNT(*) FROM likes WHERE rental_id = ? (app.js lines 185, 230). -/
def countLikes (db : Db) (rid : Int) : Nat :=
  db.likes.countP (fun l => l.rental_id == rid)

/-- An error raised by the backing store. The UNIQUE(rental_id, user_id)
constraint on the likes table makes an insert of an already present pair
fail with a constraint violation. -/
inductive DbErr
  | uniqueViolation
deriving DecidableEq

/-- INSERT INTO likes (rental_id, user_id) VALUES (?, ?) (app.js line 257):
better-sqlite3 raises on a UNIQUE constraint violation, so the insert is
fallible; on success the new row takes the next autoincrement id and the
CURRENT_TIMESTAMP default. -/
def insertLike (db : Db) (rid uid : Int) : Except DbErr Db :=
  if (findLike db rid uid).isSome then .error .uniqueViolation
  else .ok { db with likes := db.likes ++ [⟨db.nextLikeId, rid, uid, db.now⟩],
                     nextLikeId := db.nextLikeId + 1 }

/-- Response of POST /api/rentals/:id/like: invalid is the 400 produced by
validateRequest when the id param is not a positive integer, notFound the
404 when the rental is absent, liked b the 200 body, serverError the 500
produced by the global error handler (app.js lines 327-330) when an
uncaught store error propagates. -/
inductive ToggleResult
  | invalid
  | notFound
  | liked (b : Bool)
  | serverError
deriving DecidableEq

/-- POST /api/rentals/:id/like (app.js lines 247-259), run sequentially:
validate the id param, check the rental exists, then check for an existing
like row for the (rental, user) pair; delete it (DELETE FROM likes WHERE
id = ?) and answer liked false, or insert one and answer liked true. The
handler has no try/catch, so an insert error would fall through to the
global error handler. -/
def toggleLike (db : Db) (rid uid : Int) : ToggleResult × Db :=
  if 0 < rid then
    match findRental db rid with
    | none => (.notFound, db)
    | some _ =>
      match findLike db rid uid with
      | some l =>
        (.liked false, { db with likes := db.likes.filter (fun x => x.id != l.id) })
      | none =>
        match insertLike db rid uid with
        | .ok db2 => (.liked true, db2)
        | .error _ => (.serverError, db)
  else (.invalid, db)

/-- The same route with the store state allowed to differ between the two
SELECT checks (run against dbCheck) and the INSERT/DELETE (run against
dbInsert): this models a write by a concurrent client of the same SQLite
file landing between the existence check and the insert. The handler code
has no try/catch around the insert, so a duplicate-unique-constraint
violation propagates to the global error handler as a 500. -/
def toggleLikeInterleaved (dbCheck dbInsert : Db) (rid uid : Int) : ToggleResult × Db :=
  if 0 < rid then
    match findRental dbCheck rid with
    | none => (.notFound, dbInsert)
    | some _ =>
      match findLike dbCheck rid uid with
      | some l =>
        (.liked false, { dbInsert with likes := dbInsert.likes.filter (fun x => x.id != l.id) })
      | none =>
        match insertLike dbInsert rid uid with
        | .ok db2 => (.liked true, db2)
        | .error _ => (.serverError, dbInsert)
  else (.invalid, dbInsert)

/-- Well-formedness of the likes table, guaranteed by the SQLite schema:
row ids are pairwise distinct (PRIMARY KEY), at most one row per
(rental_id, user_id) pair (UNIQUE constraint), and every stored id is below
the autoincrement counter. -/
def likesWF (db : Db) : Prop :=
  db.likes.Pairwise (fun a b => a.id ≠ b.id) ∧
  (∀ l₁ ∈ db.likes, ∀ l₂ ∈ db.likes,
      l₁.rental_id = l₂.rental_id → l₁.user_id = l₂.user_id → l₁ = l₂) ∧
  (∀ l ∈ db.likes, l.id < db.nextLikeId)

instance (db : Db) : Decidable (likesWF db) := by
  unfold likesWF; infer_instance

/-- Validation applied to the text body field of POST /api/rentals/:id/comments
and POST /api/todos (app.js lines 147-148, 235): the field must exist and
isLength with min 1 must hold on the raw value (the trim and escape
sanitizers run after the length check in the middleware chain). -/
def requiredTextValid : Option String → Bool
  | none => false
  | some t => decide (1 ≤ t.length)

/-- Response of POST /api/rentals/:id/comments: invalid is the 400 from
validateRequest, notFound the 404 when the rental is absent, created the
201 with the new comment row. -/
inductive CommentResult
  | invalid
  | notFound
  | created (c : CommentRow)
deriving DecidableEq

/-- POST /api/rentals/:id/comments (app.js lines 235-244). The middleware
validates the id param (positive integer) and the text body field; only
then does the handler check the rental exists (404 when not) and insert
the comment row. -/
def addComment (db : Db) (rid uid : Int) (text : Option String) : CommentResult × Db :=
  if 0 < rid ∧ requiredTextValid text then
    match findRental db rid with
    | none => (.notFound, db)
    | some _ =>
      let t := text.getD ""
      let row : CommentRow := ⟨db.nextCommentId, rid, uid, t, db.now⟩
      (.created row,
       { db with comments := db.comments ++ [row], nextCommentId := db.nextCommentId + 1 })
  else (.invalid, db)

-- -------------------- Feed (GET /api/feed) --------------------

/-- Models the JS expression parseInt(q) || d (app.js lines 166-167): the
query parameter is none when missing or not parsing to an integer (NaN),
and a parsed 0 is falsy in JS, so both fall back to the default d. -/
def parseIntOr (q : Option Int) (d : Int) : Int :=
  match q with
  | none => d
  | some n => if n = 0 then d else n

/-- Effective LIMIT of GET /api/feed (app.js line 166):
Math.min(Math.max(parseInt(req.query.limit) || 8, 1), 50). -/
def effLimit (q : Option Int) : Int :=
  min (max (parseIntOr q 8) 1) 50

/-- Effective OFFSET of GET /api/feed (app.js line 167):
Math.max(parseInt(req.query.offset) || 0, 0). -/
def effOffset (q : Option Int) : Int :=
  max (parseIntOr q 0) 0

/-- The clamp the specification describes for the limit parameter: the
requested value clamped to the interval from 1 to 50. Stated from the
specification text, to be compared with effLimit. -/
def specClampLimit (n : Int) : Int :=
  min (max n 1) 50

/-- Insertion of an element into a list sorted by le, for the embedding of
the SQL ORDER BY clauses. -/
def insertBy {α : Type} (le : α → α → Bool) (a : α) : List α → List α
  | [] => [a]
  | b :: bs => if le a b then a :: b :: bs else b :: insertBy le a bs

/-- Insertion sort by le, the embedding of SQL ORDER BY: structurally
recursive so concrete stores evaluate inside proofs. -/
def sortBy {α : Type} (le : α → α → Bool) : List α → List α
  | [] => []
  | a :: as => insertBy le a (sortBy le as)

/-- JSON.parse of the images column with the try/catch of app.js
lines 182-183 and 228: NULL reads as the empty-array literal, a decodable
stored sequence yields its elements, malformed text is caught and degraded
to the empty list. -/
def decodeImages : StoredImages → List String
  | .absent => []
  | .encoded l => l
  | .malformed => []

/-- A comment as shaped by the feed and detail queries (app.js lines 184,
229): comment fields joined with the author display name. -/
structure CommentView where
  id : Int
  text : String
  created_at : Int
  user_name : Option String
deriving DecidableEq

/-- SELECT ... FROM users WHERE id = ?. -/
def findUser (db : Db) (uid : Int) : Option UserRow :=
  db.users.find? (fun u => u.id == uid)

/-- SELECT c.id, c.text, c.created_at, u.name FROM comments c JOIN users u
ON c.user_id = u.id WHERE c.rental_id = ? ORDER BY c.id ASC LIMIT 5
(app.js line 184): comments of the rental that join to an existing user,
ascending by id, first five. -/
def feedComments (db : Db) (rid : Int) : List CommentView :=
  (sortBy (fun a b => a.id ≤ b.id)
    ((db.comments.filter (fun c => c.rental_id == rid)).filterMap
      (fun c => (findUser db c.user_id).map
        (fun u => CommentView.mk c.id c.text c.created_at u.name)))).take 5

/-- One entry of the feed response (app.js lines 186-197). -/
structure FeedEntry where
  id : Int
  title : String
  description : Option String
  price : Option Int
  location : Option String
  images : List String
  owner_id : Int
  owner_name : Option String
  created_at : Int
  comments : List CommentView
  likes : Nat
deriving DecidableEq

/-- SELECT r.*, u.name FROM rentals r JOIN users u ON r.owner_id = u.id
ORDER BY r.id DESC LIMIT ? OFFSET ? (app.js lines 169-176): rentals whose
owner joins to a users row, descending by id, then OFFSET and LIMIT. -/
def feedRows (db : Db) (offset limit : Nat) : List (Rental × UserRow) :=
  (((sortBy (fun a b => b.1.id ≤ a.1.id)
      (db.rentals.filterMap
        (fun r => (findUser db r.owner_id).map (fun u => (r, u))))).drop offset).take limit)

/-- The mapping of one joined row to a feed entry (app.js lines 181-198):
decode the images blob with the fallback to the empty list, attach the
first five comments and the live like count. -/
def feedEntryOf (db : Db) (r : Rental) (u : UserRow) : FeedEntry :=
  { id := r.id
    title := r.title
    description := r.description
    price := r.price
    location := r.location
    images := decodeImages r.images
    owner_id := r.owner_id
    owner_name := u.name
    created_at := r.created_at
    comments := feedComments db r.id
    likes := countLikes db r.id }

/-- The feed list of GET /api/feed for an effective offset and limit. -/
def feed (db : Db) (offset limit : Nat) : List FeedEntry :=
  (feedRows db offset limit).map (fun p => feedEntryOf db p.1 p.2)

-- -------------------- Todos --------------------

/-- The done field as it appears in a JSON response: the store keeps an
INTEGER, the handlers overwrite it with a JS boolean via the double
negation idiom before responding. -/
inductive DoneVal
  | int (n : Int)
  | bool (b : Bool)
deriving DecidableEq

/-- A todo as shaped by SELECT id, text, created_at, done and returned by
the todo routes. -/
structure TodoOut where
  id : Int
  text : String
  created_at : Int
  done : DoneVal
deriving DecidableEq

/-- The response shaping of a selected todos row (app.js lines 156, 265,
303): the double negation turns the stored integer into the boolean of its
being nonzero. -/
def todoOutOf (t : TodoRow) : TodoOut :=
  ⟨t.id, t.text, t.created_at, .bool (t.done != 0)⟩

/-- SELECT ... FROM todos WHERE id = ? (app.js lines 282, 317). -/
def findTodo (db : Db) (tid : Int) : Option TodoRow :=
  db.todos.find? (fun t => t.id == tid)

/-- Response of POST /api/todos: invalid is the 400 from validateRequest,
created the 201, serverError the unreachable 500 should the reselect of
the inserted row fail. -/
inductive CreateTodoResult
  | invalid
  | created (t : TodoOut)
  | serverError
deriving DecidableEq

/-- POST /api/todos (app.js lines 143-159): validate the text field, INSERT
with done 0, reselect the row by lastInsertRowid and shape it. -/
def createTodo (db : Db) (uid : Int) (text : Option String) : CreateTodoResult × Db :=
  if requiredTextValid text then
    let row : TodoRow := ⟨db.nextTodoId, uid, text.getD "", 0, db.now⟩
    let db2 : Db := { db with todos := db.todos ++ [row], nextTodoId := db.nextTodoId + 1 }
    match findTodo db2 db.nextTodoId with
    | some t => (.created (todoOutOf t), db2)
    | none => (.serverError, db2)
  else (.invalid, db)

/-- GET /api/todos (app.js lines 262-267): SELECT ... WHERE user_id = ?
ORDER BY id DESC, then the done double negation on every row. -/
def listTodos (db : Db) (uid : Int) : List TodoOut :=
  (sortBy (fun a b => b.id ≤ a.id)
    (db.todos.filter (fun t => t.user_id == uid))).map todoOutOf

/-- Validation applied to the optional text body field of PATCH
/api/todos/:id (app.js line 275): when present, isLength with min 1. -/
def optionalTextValid : Option String → Bool
  | none => true
  | some t => decide (1 ≤ t.length)

/-- Response of PATCH /api/todos/:id: invalid is the 400 from
validateRequest, notFound the 404, forbidden the 403 ownership failure,
nothingToUpdate the 400 with the Nothing to update message, ok the 200,
serverError the unreachable 500 should the reselect after UPDATE fail. -/
inductive PatchResult
  | invalid
  | notFound
  | forbidden
  | nothingToUpdate
  | ok (t : TodoOut)
  | serverError
deriving DecidableEq

/-- The UPDATE todos SET ... WHERE id = ? built at app.js lines 287-301:
only the supplied fields enter the SET list; done is stored as 1 or 0. -/
def patchRow (text : Option String) (done : Option Bool) (x : TodoRow) : TodoRow :=
  { x with
    text := match text with | none => x.text | some s => s
    done := match done with | none => x.done | some b => if b then 1 else 0 }

/-- PATCH /api/todos/:id (app.js lines 270-306): validate the id param and
the optional fields, 404 when the todo is absent, 403 when the
authenticated user is not the owner, 400 when neither text nor done was
supplied, else UPDATE the supplied fields and reselect the row. A failed
reselect would leave the row undefined and crash into the global error
handler as a 500; the branch is unreachable since the UPDATE preserves
ids, and is kept only for faithfulness. -/
def patchTodo (db : Db) (uid tid : Int) (text : Option String) (done : Option Bool) :
    PatchResult × Db :=
  if 0 < tid ∧ optionalTextValid text then
    match findTodo db tid with
    | none => (.notFound, db)
    | some t =>
      if t.user_id ≠ uid then (.forbidden, db)
      else if text = none ∧ done = none then (.nothingToUpdate, db)
      else
        let todos2 := db.todos.map (fun x => if x.id == tid then patchRow text done x else x)
        let db2 : Db := { db with todos := todos2 }
        match findTodo db2 tid with
        | some u => (.ok (todoOutOf u), db2)
        | none => (.serverError, db2)
  else (.invalid, db)

-- -------------------- Concrete stores for witnesses --------------------

/-- A user row used by the concrete witnesses. -/
def aliceRow : UserRow := ⟨1, "a@x.com", some "Alice"⟩

/-- A second user, with a NULL display name. -/
def bobRow : UserRow := ⟨2, "b@x.com", none⟩

/-- A rental with a decodable images blob. -/
def loftRental : Rental :=
  ⟨1, 1, "Loft", some "cozy", some 120, some "Rome", .encoded ["/uploads/1.jpg"], 10⟩

/-- A rental whose stored images text is not decodable. -/
def brokenRental : Rental := ⟨2, 2, "Cabin", none, none, none, .malformed, 11⟩

/-- A rental with a NULL images column. -/
def nullImagesRental : Rental := ⟨3, 1, "Tent", none, none, none, .absent, 12⟩

/-- A concrete store: two users, three rentals, no likes, two todos. -/
def sampleDb : Db :=
  { users := [aliceRow, bobRow]
    rentals := [loftRental, brokenRental, nullImagesRental]
    comments := []
    likes := []
    todos := [⟨1, 1, "write tests", 0, 5⟩, ⟨2, 2, "ship", 1, 6⟩]
    nextLikeId := 1
    nextCommentId := 1
    nextTodoId := 3
    now := 20 }

/-- sampleDb with an existing like by user 2 on rental 1. -/
def likedDb : Db := { sampleDb with likes := [⟨1, 1, 2, 7⟩], nextLikeId := 2 }

/-- sampleDb as a concurrent writer of the same SQLite file may leave it
between the two SELECT statements and the INSERT of the like toggle: the
(rental 1, user 1) like row is already present. -/
def racedDb : Db := { sampleDb with likes := [⟨1, 1, 1, 8⟩], nextLikeId := 2 }

/-- Response of DELETE /api/todos/:id. -/
inductive DeleteResult
  | invalid
  | notFound
  | forbidden
  | deleted
deriving DecidableEq

/-- DELETE /api/todos/:id (app.js lines 309-324): validate the id param,
404 when the todo is absent, 403 when the authenticated user is not the
owner, else DELETE FROM todos WHERE id = ?. -/
def deleteTodo (db : Db) (uid tid : Int) : DeleteResult × Db :=
  if 0 < tid then
    match findTodo db tid with
    | none => (.notFound, db)
    | some t =>
      if t.user_id ≠ uid then (.forbidden, db)
      else (.deleted, { db with todos := db.todos.filter (fun x => x.id != tid) })
  else (.invalid, db)

/-- Well-formedness of the todos table, guaranteed by the SQLite schema:
every stored id is below the autoincrement counter. -/
def todosWF (db : Db) : Prop :=
  ∀ t ∈ db.todos, t.id < db.nextTodoId

instance (db : Db) : Decidable (todosWF db) := by
  unfold todosWF; infer_instance

-- -------------------- Helper lemmas --------------------

/-- find? skips a prefix in which it finds nothing. -/
theorem find?_append_of_none {α : Type} {p : α → Bool} {l₁ l₂ : List α}
    (h : l₁.find? p = none) : (l₁ ++ l₂).find? p = l₂.find? p := by
  rw [List.find?_append, h]
  simp

/-- Removing, by its key, one element that satisfies p from a list with
pairwise distinct keys lowers the countP of p by exactly one. -/
theorem countP_filter_ne_key {α : Type} (key : α → Int) (p : α → Bool) (l : List α) (a : α)
    (hmem : a ∈ l) (hp : p a = true)
    (hpw : l.Pairwise (fun x y => key x ≠ key y)) :
    (l.filter (fun x => key x != key a)).countP p + 1 = l.countP p := by
  induction l with
  | nil => cases hmem
  | cons b bs ih =>
    obtain ⟨hb, hbs⟩ := List.pairwise_cons.mp hpw
    rcases List.mem_cons.mp hmem with rfl | hmem2
    · have hkeep : bs.filter (fun x => key x != key a) = bs :=
        List.filter_eq_self.mpr (fun x hx => by
          simp only [bne_iff_ne, ne_eq, decide_eq_true_eq]
          exact fun hc => hb x hx hc.symm)
      rw [List.filter_cons]
      simp only [bne_self_eq_false, Bool.false_eq_true, if_false, hkeep,
        List.countP_cons, hp, if_true]
    · have hba : (key b != key a) = true := by
        simp only [bne_iff_ne, ne_eq, decide_eq_true_eq]
        exact hb a hmem2
      rw [List.filter_cons, if_pos hba, List.countP_cons, List.countP_cons,
        Nat.add_right_comm, ih hmem2 hbs]

-- -------------------- C3 --------------------

/-- C3, counterexample: rental id 999 does not exist in sampleDb, yet a
request with the empty comment text is answered by the 400 validation
response of the middleware, not by the 404, because validateRequest runs
before the handler reaches the existence check. -/
theorem addComment_empty_text_hits_validation :
    findRental sampleDb 999 = none ∧
    addComment sampleDb 999 1 (some "") = (.invalid, sampleDb) ∧
    (addComment sampleDb 999 1 (some "")).1 ≠ .notFound := by decide

/-- C3, amended: adding a comment to a rental id absent from the store
fails with the 404 not-found response for every comment text that passes
validation (present and of length at least one); an empty or missing text
instead fails with the 400 validation response first, even when the
rental id does not exist. This theorem proves the not-found half. -/
theorem addComment_absent_rental_notFound (db : Db) (rid uid : Int) (text : String)
    (hid : 0 < rid) (ht : requiredTextValid (some text) = true)
    (hmiss : findRental db rid = none) :
    addComment db rid uid (some text) = (.notFound, db) := by
  unfold addComment
  rw [if_pos ⟨hid, ht⟩]
  simp only [hmiss]

/-- Witness for the amended C3 theorem at a concrete store and input. -/
theorem addComment_absent_rental_notFound_witness :
    addComment sampleDb 999 1 (some "hi") = (.notFound, sampleDb) :=
  addComment_absent_rental_notFound sampleDb 999 1 "hi" (by decide) (by decide) (by decide)

-- -------------------- C5 --------------------

/-- C5, counterexample: a requested limit of 0 yields the default 8 (the
JS disjunction treats 0 as falsy), not the clamp of 0 into the interval
from 1 to 50, which is 1. -/
theorem effLimit_zero_is_default_not_clamp :
    effLimit (some 0) = 8 ∧ specClampLimit 0 = 1 ∧
    effLimit (some 0) ≠ specClampLimit 0 := by decide

/-- C5, amended: a supplied limit of 0 (like a missing or non-numeric one)
yields the default 8; every nonzero supplied limit is clamped to the
interval from 1 to 50; the effective limit always lies in that interval;
the effective offset is the requested offset clamped to at least 0. -/
theorem feed_pagination_params :
    effLimit none = 8 ∧ effLimit (some 0) = 8 ∧
    (∀ n : Int, n ≠ 0 → effLimit (some n) = specClampLimit n) ∧
    (∀ q : Option Int, 1 ≤ effLimit q ∧ effLimit q ≤ 50) ∧
    (∀ q : Option Int, 0 ≤ effOffset q) ∧
    (∀ n : Int, effOffset (some n) = max n 0) := by
  refine ⟨by decide, by decide, ?_, ?_, ?_, ?_⟩
  · intro n hn
    simp [effLimit, parseIntOr, specClampLimit, hn]
  · intro q
    constructor
    · exact le_min (le_max_right _ _) (by decide)
    · exact min_le_right _ _
  · intro q
    exact le_max_right _ _
  · intro n
    by_cases hn : n = 0 <;> simp [effOffset, parseIntOr, hn]

/-- Witness for the amended C5 theorem at concrete inputs. -/
theorem feed_pagination_params_witness :
    (60 : Int) ≠ 0 ∧ effLimit (some 60) = specClampLimit 60 :=
  ⟨by decide, feed_pagination_params.2.2.1 60 (by decide)⟩

-- -------------------- C7 --------------------

/-- C7: the failing input is the pair of store states around the race, in
which the (rental 1, user 1) like row was inserted by a concurrent writer
between the existence check and the INSERT. The insert then raises the
unique-constraint violation, and since the handler has no try/catch the
uncaught error becomes the 500 of the global error handler instead of the
liked true response the specification requires. -/
theorem toggleLike_race_surfaces_500 :
    findLike sampleDb 1 1 = none ∧
    insertLike racedDb 1 1 = .error .uniqueViolation ∧
    toggleLikeInterleaved sampleDb racedDb 1 1 = (.serverError, racedDb) ∧
    (toggleLikeInterleaved sampleDb racedDb 1 1).1 ≠ .liked true :=
  ⟨by decide, rfl, by decide, by decide⟩

-- -------------------- C9 --------------------

/-- C9: a PATCH of an existing owned todo that supplies neither text nor
done is answered by the 400 Nothing to update response and the store is
unchanged. -/
theorem patchTodo_nothing_to_update (db : Db) (uid tid : Int) (t : TodoRow)
    (hf : findTodo db tid = some t) (hown : t.user_id = uid) (hid : 0 < tid) :
    patchTodo db uid tid none none = (.nothingToUpdate, db) := by
  unfold patchTodo
  rw [if_pos ⟨hid, rfl⟩]
  simp [hf, hown]

/-- Witness for the C9 theorem at a concrete store and input. -/
theorem patchTodo_nothing_to_update_witness :
    patchTodo sampleDb 1 1 none none = (.nothingToUpdate, sampleDb) :=
  patchTodo_nothing_to_update sampleDb 1 1 ⟨1, 1, "write tests", 0, 5⟩
    (by decide) (by decide) (by decide)

-- -------------------- C4 --------------------

/-- C4: PATCH and DELETE of an existing todo owned by a different
authenticated user fail with the 403 authorization response, distinct from
the 404 not-found response, and the store is unchanged; the 404 is
produced only when the todo id does not exist. -/
theorem todo_ownership_enforced (db : Db) (uid tid : Int) (s : Option String) (d : Option Bool)
    (hid : 0 < tid) (hs : optionalTextValid s = true) :
    (∀ t, findTodo db tid = some t → t.user_id ≠ uid →
      patchTodo db uid tid s d = (.forbidden, db) ∧
      deleteTodo db uid tid = (.forbidden, db)) ∧
    (findTodo db tid = none →
      patchTodo db uid tid s d = (.notFound, db) ∧
      deleteTodo db uid tid = (.notFound, db)) ∧
    ((patchTodo db uid tid s d).1 = .notFound → findTodo db tid = none) ∧
    ((deleteTodo db uid tid).1 = .notFound → findTodo db tid = none) := by
  refine ⟨?_, ?_, ?_, ?_⟩
  · intro t hf hne
    constructor
    · unfold patchTodo
      rw [if_pos ⟨hid, hs⟩]
      simp [hf, hne]
    · unfold deleteTodo
      rw [if_pos hid]
      simp [hf, hne]
  · intro hf
    constructor
    · unfold patchTodo
      rw [if_pos ⟨hid, hs⟩]
      simp [hf]
    · unfold deleteTodo
      rw [if_pos hid]
      simp [hf]
  · intro hres
    cases hf : findTodo db tid with
    | none => rfl
    | some t =>
      exfalso
      unfold patchTodo at hres
      rw [if_pos ⟨hid, hs⟩] at hres
      simp only [hf] at hres
      split at hres
      · simp at hres
      · split at hres
        · simp at hres
        · split at hres <;> simp at hres
  · intro hres
    cases hf : findTodo db tid with
    | none => rfl
    | some t =>
      exfalso
      unfold deleteTodo at hres
      rw [if_pos hid] at hres
      simp only [hf] at hres
      split at hres <;> simp at hres

/-- Witness for the C4 theorem: user 1 tries to patch and delete todo 2,
owned by user 2, in the concrete store. -/
theorem todo_ownership_enforced_witness :
    patchTodo sampleDb 1 2 none (some true) = (.forbidden, sampleDb) ∧
    deleteTodo sampleDb 1 2 = (.forbidden, sampleDb) :=
  (todo_ownership_enforced sampleDb 1 2 none (some true) (by decide) (by decide)).1
    ⟨2, 2, "ship", 1, 6⟩ (by decide) (by decide)

-- -------------------- C10 --------------------

/-- C10: every todo returned by the interface carries done as a JSON
boolean even though the store persists an integer: a fresh todo is stored
with done 0 and reported with done false; every todo in the list response
and every successful patch response carries a boolean done value. -/
theorem todo_done_is_boolean :
    (∀ db uid t, todosWF db → requiredTextValid (some t) = true →
      ∃ out db2, createTodo db uid (some t) = (.created out, db2) ∧
        out.done = .bool false ∧
        ∃ row, row ∈ db2.todos ∧ row.id = db.nextTodoId ∧ row.done = 0) ∧
    (∀ db uid, ∀ o ∈ listTodos db uid, ∃ b, o.done = .bool b) ∧
    (∀ db uid tid s d out db2, patchTodo db uid tid s d = (.ok out, db2) →
      ∃ b, out.done = .bool b) := by
  refine ⟨?_, ?_, ?_⟩
  · intro db uid t hwf ht
    have hnone : db.todos.find? (fun x => x.id == db.nextTodoId) = none := by
      rw [List.find?_eq_none]
      intro x hx
      have hlt := hwf x hx
      simp only [beq_iff_eq]
      omega
    have hfind : findTodo
        { db with todos := db.todos ++ [⟨db.nextTodoId, uid, t, 0, db.now⟩],
                  nextTodoId := db.nextTodoId + 1 } db.nextTodoId
        = some ⟨db.nextTodoId, uid, t, 0, db.now⟩ := by
      show List.find? (fun x : TodoRow => x.id == db.nextTodoId)
          (db.todos ++ [⟨db.nextTodoId, uid, t, 0, db.now⟩])
          = some ⟨db.nextTodoId, uid, t, 0, db.now⟩
      rw [find?_append_of_none hnone]
      simp [List.find?]
    refine ⟨todoOutOf ⟨db.nextTodoId, uid, t, 0, db.now⟩,
      { db with todos := db.todos ++ [⟨db.nextTodoId, uid, t, 0, db.now⟩],
                nextTodoId := db.nextTodoId + 1 }, ?_, ?_, ?_⟩
    · simp only [createTodo, ht, if_true, Option.getD_some, hfind]
    · rfl
    · exact ⟨⟨db.nextTodoId, uid, t, 0, db.now⟩,
        List.mem_append_right _ (List.mem_singleton.mpr rfl), rfl, rfl⟩
  · intro db uid o ho
    obtain ⟨t, _, rfl⟩ := List.mem_map.mp ho
    exact ⟨t.done != 0, rfl⟩
  · intro db uid tid s d out db2 h
    unfold patchTodo at h
    split at h
    · split at h
      · simp at h
      · split at h
        · simp at h
        · split at h
          · simp at h
          · dsimp only [] at h
            split at h
            · rename_i u hu
              simp only [Prod.mk.injEq, PatchResult.ok.injEq] at h
              exact ⟨u.done != 0, by rw [← h.1]; rfl⟩
            · simp at h
    · simp at h

/-- Witness for the C10 theorem: creating a todo in the concrete store
yields a response with done reported as the boolean false. -/
theorem todo_done_is_boolean_witness :
    ∃ out db2, createTodo sampleDb 1 (some "x") = (.created out, db2) ∧
      out.done = .bool false ∧
      ∃ row, row ∈ db2.todos ∧ row.id = sampleDb.nextTodoId ∧ row.done = 0 :=
  todo_done_is_boolean.1 sampleDb 1 "x" (by decide) (by decide)

-- -------------------- C6 --------------------

/-- C6: every feed entry carries as images the decoded stored sequence of
its rental row, an absent or malformed stored sequence degrades to the
empty list, and no entry is dropped from the page because of it: the feed
has exactly one entry per selected row. -/
theorem feed_images_degrade (db : Db) (offset limit : Nat) :
    (feed db offset limit).length = (feedRows db offset limit).length ∧
    ∀ e ∈ feed db offset limit, ∃ r u, (r, u) ∈ feedRows db offset limit ∧
      e.images = decodeImages r.images ∧
      ((r.images = .absent ∨ r.images = .malformed) → e.images = []) := by
  constructor
  · simp [feed]
  · intro e he
    obtain ⟨⟨r, u⟩, hmem, heq⟩ := List.mem_map.mp he
    refine ⟨r, u, hmem, ?_, ?_⟩
    · rw [← heq]
      rfl
    · rintro (h | h) <;> rw [← heq] <;> simp [feedEntryOf, h, decodeImages]

/-- Witness for the C6 theorem: the concrete store holds a rental with a
malformed images blob; its feed entry exists and carries the empty list. -/
theorem feed_images_degrade_witness :
    ∃ r u, (r, u) ∈ feedRows sampleDb 0 8 ∧
      (feedEntryOf sampleDb brokenRental bobRow).images = decodeImages r.images ∧
      ((r.images = .absent ∨ r.images = .malformed) →
        (feedEntryOf sampleDb brokenRental bobRow).images = []) :=
  (feed_images_degrade sampleDb 0 8).2 (feedEntryOf sampleDb brokenRental bobRow) (by decide)

-- -------------------- C1 --------------------

/-- C1: for a well-formed likes table, the toggle flips the presence of the
(rental, user) like pair: when the rental id is absent the response is the
404 and the store is unchanged; when the rental exists, a present pair is
deleted with response liked false, and an absent pair is inserted with
response liked true. -/
theorem toggleLike_flips_pair (db : Db) (rid uid : Int)
    (hwf : likesWF db) (hid : 0 < rid) :
    (findRental db rid = none → toggleLike db rid uid = (.notFound, db)) ∧
    ((findRental db rid).isSome →
      ((findLike db rid uid).isSome →
        (toggleLike db rid uid).1 = .liked false ∧
        findLike (toggleLike db rid uid).2 rid uid = none) ∧
      (findLike db rid uid = none →
        (toggleLike db rid uid).1 = .liked true ∧
        (findLike (toggleLike db rid uid).2 rid uid).isSome)) := by
  constructor
  · intro h
    unfold toggleLike
    rw [if_pos hid, h]
  · intro hr0
    obtain ⟨r, hr⟩ := Option.isSome_iff_exists.mp hr0
    constructor
    · intro hlk
      obtain ⟨l, hl⟩ := Option.isSome_iff_exists.mp hlk
      have hl' : List.find? (fun x : LikeRow => x.rental_id == rid && x.user_id == uid)
          db.likes = some l := hl
      have hlmem : l ∈ db.likes := List.mem_of_find?_eq_some hl'
      have hql := List.find?_some hl'
      simp only [Bool.and_eq_true, beq_iff_eq] at hql
      have h1 : toggleLike db rid uid =
          (.liked false, { db with likes := db.likes.filter (fun x => x.id != l.id) }) := by
        unfold toggleLike
        rw [if_pos hid]
        simp only [hr, hl]
      refine ⟨by simp [h1], ?_⟩
      rw [h1]
      show List.find? (fun x : LikeRow => x.rental_id == rid && x.user_id == uid)
          (db.likes.filter (fun x => x.id != l.id)) = none
      rw [List.find?_eq_none]
      intro x hx hq
      obtain ⟨hxmem, hxid⟩ := List.mem_filter.mp hx
      simp only [Bool.and_eq_true, beq_iff_eq] at hq
      have hxl : x = l := hwf.2.1 x hxmem l hlmem (hq.1.trans hql.1.symm) (hq.2.trans hql.2.symm)
      rw [hxl] at hxid
      simp at hxid
    · intro hl
      have hl' : List.find? (fun x : LikeRow => x.rental_id == rid && x.user_id == uid)
          db.likes = none := hl
      have h1 : toggleLike db rid uid =
          (.liked true, { db with likes := db.likes ++ [⟨db.nextLikeId, rid, uid, db.now⟩],
                                  nextLikeId := db.nextLikeId + 1 }) := by
        unfold toggleLike insertLike
        rw [if_pos hid]
        simp [hr, hl]
      refine ⟨by simp [h1], ?_⟩
      rw [h1]
      show (List.find? (fun x : LikeRow => x.rental_id == rid && x.user_id == uid)
          (db.likes ++ [⟨db.nextLikeId, rid, uid, db.now⟩])).isSome
      rw [find?_append_of_none hl']
      simp [List.find?]

/-- Witness for the C1 theorem at the concrete store likedDb, in which user
2 already likes rental 1. -/
theorem toggleLike_flips_pair_witness :
    (findRental likedDb 1 = none → toggleLike likedDb 1 2 = (.notFound, likedDb)) ∧
    ((findRental likedDb 1).isSome →
      ((findLike likedDb 1 2).isSome →
        (toggleLike likedDb 1 2).1 = .liked false ∧
        findLike (toggleLike likedDb 1 2).2 1 2 = none) ∧
      (findLike likedDb 1 2 = none →
        (toggleLike likedDb 1 2).1 = .liked true ∧
        (findLike (toggleLike likedDb 1 2).2 1 2).isSome)) :=
  toggleLike_flips_pair likedDb 1 2 (by decide) (by decide)

-- -------------------- C2 --------------------

/-- C2: for a well-formed likes table and an existing rental, toggling the
like of a fixed (rental, user) pair twice in succession answers liked
false on the second call whenever the first answered liked true, and the
stored like count of the rental is back at its value from before the
first call. -/
theorem toggleLike_twice_restores (db : Db) (rid uid : Int)
    (hwf : likesWF db) (hid : 0 < rid) (hr0 : (findRental db rid).isSome) :
    ((toggleLike db rid uid).1 = .liked true →
      (toggleLike (toggleLike db rid uid).2 rid uid).1 = .liked false) ∧
    countLikes (toggleLike (toggleLike db rid uid).2 rid uid).2 rid = countLikes db rid := by
  obtain ⟨r, hr⟩ := Option.isSome_iff_exists.mp hr0
  cases hl : findLike db rid uid with
  | none =>
    have hl' : List.find? (fun x : LikeRow => x.rental_id == rid && x.user_id == uid)
        db.likes = none := hl
    have h1 : toggleLike db rid uid =
        (.liked true, { db with likes := db.likes ++ [⟨db.nextLikeId, rid, uid, db.now⟩],
                                nextLikeId := db.nextLikeId + 1 }) := by
      unfold toggleLike insertLike
      rw [if_pos hid]
      simp [hr, hl]
    have hr1 : findRental
        ({ db with likes := db.likes ++ [⟨db.nextLikeId, rid, uid, db.now⟩],
                   nextLikeId := db.nextLikeId + 1 }) rid = some r := hr
    have hl1 : findLike
        ({ db with likes := db.likes ++ [⟨db.nextLikeId, rid, uid, db.now⟩],
                   nextLikeId := db.nextLikeId + 1 }) rid uid
        = some ⟨db.nextLikeId, rid, uid, db.now⟩ := by
      show List.find? (fun x : LikeRow => x.rental_id == rid && x.user_id == uid)
          (db.likes ++ [⟨db.nextLikeId, rid, uid, db.now⟩])
          = some ⟨db.nextLikeId, rid, uid, db.now⟩
      rw [find?_append_of_none hl']
      simp [List.find?]
    have hkeep : db.likes.filter (fun x => x.id != db.nextLikeId) = db.likes :=
      List.filter_eq_self.mpr (fun a ha => by
        have := hwf.2.2 a ha
        simp only [bne_iff_ne, ne_eq, decide_eq_true_eq]
        omega)
    have h2 : toggleLike
        ({ db with likes := db.likes ++ [⟨db.nextLikeId, rid, uid, db.now⟩],
                   nextLikeId := db.nextLikeId + 1 }) rid uid
        = (.liked false,
           { db with
               likes := List.filter (fun x : LikeRow => x.id != db.nextLikeId)
                            (db.likes ++ [⟨db.nextLikeId, rid, uid, db.now⟩]),
               nextLikeId := db.nextLikeId + 1 }) := by
      unfold toggleLike
      rw [if_pos hid]
      simp only [hr1, hl1]
    refine ⟨fun _ => ?_, ?_⟩
    · rw [h1, h2]
    · rw [h1, h2]
      show List.countP (fun l : LikeRow => l.rental_id == rid)
          (List.filter (fun x : LikeRow => x.id != db.nextLikeId)
            (db.likes ++ [⟨db.nextLikeId, rid, uid, db.now⟩]))
          = List.countP (fun l : LikeRow => l.rental_id == rid) db.likes
      rw [List.filter_append, hkeep]
      simp
  | some l =>
    have hl' : List.find? (fun x : LikeRow => x.rental_id == rid && x.user_id == uid)
        db.likes = some l := hl
    have hlmem : l ∈ db.likes := List.mem_of_find?_eq_some hl'
    have hql := List.find?_some hl'
    simp only [Bool.and_eq_true, beq_iff_eq] at hql
    have h1 : toggleLike db rid uid =
        (.liked false, { db with likes := db.likes.filter (fun x => x.id != l.id) }) := by
      unfold toggleLike
      rw [if_pos hid]
      simp only [hr, hl]
    have hr1 : findRental ({ db with likes := db.likes.filter (fun x => x.id != l.id) }) rid
        = some r := hr
    have hl1 : findLike ({ db with likes := db.likes.filter (fun x => x.id != l.id) }) rid uid
        = none := by
      show List.find? (fun x : LikeRow => x.rental_id == rid && x.user_id == uid)
          (db.likes.filter (fun x => x.id != l.id)) = none
      rw [List.find?_eq_none]
      intro x hx hq
      obtain ⟨hxmem, hxid⟩ := List.mem_filter.mp hx
      simp only [Bool.and_eq_true, beq_iff_eq] at hq
      have hxl : x = l := hwf.2.1 x hxmem l hlmem (hq.1.trans hql.1.symm) (hq.2.trans hql.2.symm)
      rw [hxl] at hxid
      simp at hxid
    have h2 : toggleLike ({ db with likes := db.likes.filter (fun x => x.id != l.id) }) rid uid
        = (.liked true,
           { db with
               likes := db.likes.filter (fun x => x.id != l.id)
                            ++ [⟨db.nextLikeId, rid, uid, db.now⟩],
               nextLikeId := db.nextLikeId + 1 }) := by
      unfold toggleLike insertLike
      rw [if_pos hid]
      simp [hr1, hl1]
    refine ⟨fun hc => ?_, ?_⟩
    · rw [h1] at hc
      simp at hc
    · rw [h1, h2]
      show List.countP (fun x : LikeRow => x.rental_id == rid)
          (db.likes.filter (fun x => x.id != l.id) ++ [⟨db.nextLikeId, rid, uid, db.now⟩])
          = List.countP (fun x : LikeRow => x.rental_id == rid) db.likes
      rw [List.countP_append]
      have hone : List.countP (fun x : LikeRow => x.rental_id == rid)
          [⟨db.nextLikeId, rid, uid, db.now⟩] = 1 := by
        simp [List.countP, List.countP.go]
      rw [hone]
      exact countP_filter_ne_key (fun x => x.id) (fun x => x.rental_id == rid) db.likes l
        hlmem (by simp [hql.1]) hwf.1

/-- Witness for the C2 theorem at the concrete store sampleDb, whose likes
table is empty: the two calls insert and then delete the pair. -/
theorem toggleLike_twice_restores_witness :
    ((toggleLike sampleDb 1 1).1 = .liked true →
      (toggleLike (toggleLike sampleDb 1 1).2 1 1).1 = .liked false) ∧
    countLikes (toggleLike (toggleLike sampleDb 1 1).2 1 1).2 1 = countLikes sampleDb 1 :=
  toggleLike_twice_restores sampleDb 1 1 (by decide) (by decide) (by decide)

-- -------------------- C8 --------------------

/-- C8: a successful PATCH by the owner changes only the supplied fields of
the addressed todo: id, owner and created_at never change, text is
unchanged when not supplied, done is unchanged when not supplied and set
to 1 or 0 from the supplied boolean otherwise, every other todo row is
unchanged in place, and the other tables are untouched. -/
theorem patchTodo_frame (db : Db) (uid tid : Int) (s : Option String) (d : Option Bool)
    (t : TodoRow) (hf : findTodo db tid = some t) (hown : t.user_id = uid)
    (hid : 0 < tid) (hs : optionalTextValid s = true)
    (hsome : ¬ (s = none ∧ d = none)) :
    ∃ out, (patchTodo db uid tid s d).1 = .ok out ∧
      ((patchTodo db uid tid s d).2.users = db.users ∧
       (patchTodo db uid tid s d).2.rentals = db.rentals ∧
       (patchTodo db uid tid s d).2.comments = db.comments ∧
       (patchTodo db uid tid s d).2.likes = db.likes ∧
       (patchTodo db uid tid s d).2.todos.length = db.todos.length) ∧
      ∀ (i : Nat) (old : TodoRow), db.todos[i]? = some old →
        (old.id ≠ tid → (patchTodo db uid tid s d).2.todos[i]? = some old) ∧
        (old.id = tid → ∃ new, (patchTodo db uid tid s d).2.todos[i]? = some new ∧
          new.id = old.id ∧ new.user_id = old.user_id ∧
          new.created_at = old.created_at ∧
          (s = none → new.text = old.text) ∧
          (d = none → new.done = old.done) ∧
          (∀ str, s = some str → new.text = str) ∧
          (∀ b, d = some b → new.done = (if b then 1 else 0))) := by
  have hf' : List.find? (fun x : TodoRow => x.id == tid) db.todos = some t := hf
  have htid : t.id = tid := by
    simpa using List.find?_some (p := fun x : TodoRow => x.id == tid) hf'
  have hsel : findTodo
      ({ db with todos := db.todos.map (fun x => if x.id == tid then patchRow s d x else x) })
      tid = some (patchRow s d t) := by
    show List.find? (fun x : TodoRow => x.id == tid)
        (db.todos.map (fun x => if x.id == tid then patchRow s d x else x))
        = some (patchRow s d t)
    rw [List.find?_map]
    have hcomp : ((fun x : TodoRow => x.id == tid)
        ∘ (fun x : TodoRow => if x.id == tid then patchRow s d x else x))
        = fun x : TodoRow => x.id == tid := by
      funext x
      by_cases hx : x.id = tid
      · simp [hx, patchRow]
      · simp [hx]
    rw [hcomp, hf']
    simp [htid]
  have hmain : patchTodo db uid tid s d =
      (.ok (todoOutOf (patchRow s d t)),
       { db with todos := db.todos.map (fun x => if x.id == tid then patchRow s d x else x) }) := by
    unfold patchTodo
    rw [if_pos ⟨hid, hs⟩]
    simp only [hf]
    rw [if_neg (by simp [hown]), if_neg hsome]
    rw [hsel]
  refine ⟨todoOutOf (patchRow s d t), by rw [hmain], ?_, ?_⟩
  · rw [hmain]
    exact ⟨rfl, rfl, rfl, rfl, by simp⟩
  · intro i old hold
    constructor
    · intro hne
      rw [hmain]
      show (db.todos.map (fun x => if x.id == tid then patchRow s d x else x))[i]? = some old
      rw [List.getElem?_map, hold]
      simp [hne]
    · intro heq
      rw [hmain]
      refine ⟨patchRow s d old, ?_, rfl, rfl, rfl, ?_, ?_, ?_, ?_⟩
      · show (db.todos.map (fun x => if x.id == tid then patchRow s d x else x))[i]? =
            some (patchRow s d old)
        rw [List.getElem?_map, hold]
        simp [heq]
      · intro hsn
        subst hsn
        rfl
      · intro hdn
        subst hdn
        rfl
      · intro str hstr
        subst hstr
        rfl
      · intro b hb
        subst hb
        rfl

/-- Witness for the C8 theorem: user 1 patches todo 1 supplying only done
in the concrete store. -/
theorem patchTodo_frame_witness :
    ∃ out, (patchTodo sampleDb 1 1 none (some true)).1 = .ok out := by
  obtain ⟨out, h1, -, -⟩ := patchTodo_frame sampleDb 1 1 none (some true)
    ⟨1, 1, "write tests", 0, 5⟩ (by decide) (by decide) (by decide) (by decide) (by decide)
  exact ⟨out, h1⟩
